import Mathlib

/-!
Shallow embedding of the access-control mixins in
src/task_manager/mixins.py of the task_manager repository.

The mixins intercept the request-dispatch lifecycle of a web framework.
We model a request as carrying a user (an optional numeric identity plus
an authentication flag), a response as either a redirect to a URL or an
opaque content payload, and the user-visible message queue as the list of
messages a mixin enqueues during one interception.  The wrapped handler
(the `super().dispatch()` or `super().post()` continuation) is passed in
explicitly as a function argument, so theorems can quantify over it.
-/

/-- Modelled from the spec: the repository constants module, imported by
mixins.py but not present under the provided sources, defines the URL name
of the login location (REVERSE_LOGIN). -/
def REVERSE_LOGIN : String := "login"

/-- Modelled from the spec: the repository constants module defines the URL
name of the home location (REVERSE_HOME), the default redirect target of the
deletion-protection policy. -/
def REVERSE_HOME : String := "home"

/-- Modelled from the spec: the repository constants module defines the
warning text shown to unauthenticated visitors (MSG_NO_PERMISSION). -/
def MSG_NO_PERMISSION : String := "No permission message"

/-- The requesting user as the mixins see it: request.user.id is None for
the anonymous user, and request.user.is_authenticated distinguishes
authenticated users from anonymous ones. -/
structure User where
  id : Option Nat
  is_authenticated : Bool
deriving DecidableEq

/-- A request object: the mixins only consult request.user. -/
structure HttpRequest where
  user : User
deriving DecidableEq

/-- Severity level of an enqueued user-visible message, mirroring
django.contrib.messages levels used in mixins.py. -/
inductive MsgLevel where
  | warning
  | error
deriving DecidableEq

/-- One user-visible message enqueued via messages.warning or
messages.error. -/
structure Message where
  level : MsgLevel
  text : String
deriving DecidableEq

/-- An HTTP response: either a redirect to a URL (django redirect) or some
opaque content produced by a wrapped handler. -/
inductive Response where
  | redirect (url : String)
  | content (body : String)
deriving DecidableEq

/-- Failures a wrapped deletion handler can raise: ProtectedError (deletion
blocked by dependent records referencing the target) or any other error,
tagged by a code. -/
inductive Exc where
  | protectedError
  | otherError (code : Nat)
deriving DecidableEq

/-- A resource resolved by get_object() for ModifyPermissionMixin: the
ownership comparison there reads the id attribute of the object itself. -/
structure Resource where
  id : Option Nat
deriving DecidableEq

/-- The author relation of a task: carries the author identity. -/
structure Author where
  id : Option Nat
deriving DecidableEq

/-- A task as resolved by get_object() for TaskDeletionPermissionMixin:
ownership is read through the nested author relation. -/
structure TaskRecord where
  author : Author
deriving DecidableEq

/-- Modelled from the spec: the framework authentication gate
(LoginRequiredMixin.dispatch): an authenticated request is passed to the
underlying handler; an unauthenticated one is answered by the
handle_no_permission hook. -/
def loginRequiredDispatch (request : HttpRequest)
    (handleNoPermission : HttpRequest → Response × List Message)
    (inner : HttpRequest → Response × List Message) :
    Response × List Message :=
  if request.user.is_authenticated then inner request
  else handleNoPermission request

/-- Modelled from the spec: the default handle_no_permission of the
framework authentication gate redirects to the login location without
enqueuing a message of its own. -/
def defaultHandleNoPermission (request : HttpRequest) :
    Response × List Message :=
  (Response.redirect REVERSE_LOGIN, [])

/-- AuthentificationPermissionMixin.handle_no_permission: enqueue a warning
message MSG_NO_PERMISSION and redirect to REVERSE_LOGIN. -/
def AuthentificationPermissionMixin.handle_no_permission
    (request : HttpRequest) : Response × List Message :=
  (Response.redirect REVERSE_LOGIN, [⟨MsgLevel.warning, MSG_NO_PERMISSION⟩])

/-- The full dispatch of a view using AuthentificationPermissionMixin: the
inherited authentication gate with the overridden handle_no_permission. -/
def AuthentificationPermissionMixin.dispatch (request : HttpRequest)
    (inner : HttpRequest → Response × List Message) :
    Response × List Message :=
  loginRequiredDispatch request
    AuthentificationPermissionMixin.handle_no_permission inner

/-- The ModifyPermissionMixin class: its configurable class attributes and
the resource that get_object() resolves for the current request. -/
structure ModifyPermissionMixin where
  unpermission_message : String := "Access denied message"
  unpermission_url : String := REVERSE_LOGIN
  object : Resource
deriving DecidableEq

/-- ModifyPermissionMixin.dispatch: if request.user.id differs from
get_object().id, enqueue an error message and redirect to unpermission_url;
otherwise delegate to super().dispatch. -/
def ModifyPermissionMixin.dispatch (m : ModifyPermissionMixin)
    (request : HttpRequest)
    (superDispatch : HttpRequest → Response × List Message) :
    Response × List Message :=
  if request.user.id ≠ m.object.id then
    (Response.redirect m.unpermission_url,
     [⟨MsgLevel.error, m.unpermission_message⟩])
  else superDispatch request

/-- ModifyPermissionMixin.dispatch composed with the inherited framework
authentication gate as its super() continuation: the method resolution
order puts the overriding dispatch first, then LoginRequiredMixin. -/
def ModifyPermissionMixin.dispatchThroughGate (m : ModifyPermissionMixin)
    (request : HttpRequest)
    (inner : HttpRequest → Response × List Message) :
    Response × List Message :=
  ModifyPermissionMixin.dispatch m request
    (fun req => loginRequiredDispatch req defaultHandleNoPermission inner)

/-- The DeletionProtectionMixin class: its configurable class attributes
(message text and redirect target, defaulting to the home location). -/
structure DeletionProtectionMixin where
  protected_data_message : String := "Entity deletion forbidden message"
  protected_data_url : String := REVERSE_HOME
deriving DecidableEq

/-- DeletionProtectionMixin.post: call super().post; if it raises
ProtectedError, enqueue an error message and redirect to
protected_data_url; a normal response and any other error pass through.
The List Message component records the messages this mixin enqueues. -/
def DeletionProtectionMixin.post (m : DeletionProtectionMixin)
    (request : HttpRequest)
    (superPost : HttpRequest → Except Exc Response) :
    Except Exc (Response × List Message) :=
  match superPost request with
  | Except.ok r => Except.ok (r, [])
  | Except.error Exc.protectedError =>
      Except.ok (Response.redirect m.protected_data_url,
        [⟨MsgLevel.error, m.protected_data_message⟩])
  | Except.error e => Except.error e

/-- The TaskDeletionPermissionMixin class: its configurable class
attributes and the task that get_object() resolves. -/
structure TaskDeletionPermissionMixin where
  unpermission_message : String := "Task deletion forbidden message"
  unpermission_url : String := "redirected_url"
  object : TaskRecord
deriving DecidableEq

/-- TaskDeletionPermissionMixin.dispatch: if request.user.id differs from
get_object().author.id, redirect to unpermission_url, enqueuing the error
message only when the requester is authenticated; otherwise delegate to
super().dispatch. -/
def TaskDeletionPermissionMixin.dispatch
    (m : TaskDeletionPermissionMixin) (request : HttpRequest)
    (superDispatch : HttpRequest → Response × List Message) :
    Response × List Message :=
  if request.user.id ≠ m.object.author.id then
    if request.user.is_authenticated then
      (Response.redirect m.unpermission_url,
       [⟨MsgLevel.error, m.unpermission_message⟩])
    else
      (Response.redirect m.unpermission_url, [])
  else superDispatch request

/-- TaskDeletionPermissionMixin.dispatch composed with the inherited
framework authentication gate as its super() continuation. -/
def TaskDeletionPermissionMixin.dispatchThroughGate
    (m : TaskDeletionPermissionMixin) (request : HttpRequest)
    (inner : HttpRequest → Response × List Message) :
    Response × List Message :=
  TaskDeletionPermissionMixin.dispatch m request
    (fun req => loginRequiredDispatch req defaultHandleNoPermission inner)

/- Concrete sample data used by witnesses and counterexamples. -/

/-- An authenticated user with identity 1. -/
def ownerUser : User := ⟨some 1, true⟩

/-- An authenticated user with identity 2. -/
def otherUser : User := ⟨some 2, true⟩

/-- The anonymous user: id None, not authenticated. -/
def anonUser : User := ⟨none, false⟩

/-- A request by the user with identity 1. -/
def reqOwner : HttpRequest := ⟨ownerUser⟩

/-- A request by the user with identity 2. -/
def reqOther : HttpRequest := ⟨otherUser⟩

/-- A request by the anonymous user. -/
def reqAnon : HttpRequest := ⟨anonUser⟩

/-- A sample wrapped handler returning an opaque success response. -/
def innerHandler : HttpRequest → Response × List Message :=
  fun _ => (Response.content "handled", [])

/-- A second sample wrapped handler, observably different from the first. -/
def innerHandlerAlt : HttpRequest → Response × List Message :=
  fun _ => (Response.content "handled differently", [])

/-- A ModifyPermissionMixin instance whose resource is owned by identity 1. -/
def mmSample : ModifyPermissionMixin :=
  ModifyPermissionMixin.mk "Access denied message" REVERSE_LOGIN ⟨some 1⟩

/-- A TaskDeletionPermissionMixin instance whose task author has
identity 1. -/
def tmSample : TaskDeletionPermissionMixin :=
  TaskDeletionPermissionMixin.mk "Task deletion forbidden message"
    "redirected_url" ⟨⟨some 1⟩⟩

/-- A TaskDeletionPermissionMixin instance whose task author id is None. -/
def tmNone : TaskDeletionPermissionMixin :=
  TaskDeletionPermissionMixin.mk "Task deletion forbidden message"
    "redirected_url" ⟨⟨none⟩⟩

/-- A sample wrapped deletion handler that succeeds. -/
def deleteOk : HttpRequest → Except Exc Response :=
  fun _ => Except.ok (Response.content "deleted")

/-- A sample wrapped deletion handler that raises ProtectedError. -/
def deleteProtected : HttpRequest → Except Exc Response :=
  fun _ => Except.error Exc.protectedError

/-- A sample wrapped deletion handler that raises some other error. -/
def deleteOther : HttpRequest → Except Exc Response :=
  fun _ => Except.error (Exc.otherError 7)

/-- Claim C1: for both ownership policies (ModifyPermissionMixin.dispatch
and TaskDeletionPermissionMixin.dispatch), the request reaches the wrapped
handler exactly when the requesting identity equals the resource owner
identity: on a match the result is the wrapped handler applied to the
request, and on a mismatch the result is the same for every wrapped
handler, so the handler is never invoked. -/
theorem ownership_gate_controls_handler_access
    (mm : ModifyPermissionMixin) (tm : TaskDeletionPermissionMixin)
    (request : HttpRequest)
    (s : HttpRequest → Response × List Message) :
    (request.user.id = mm.object.id →
       ModifyPermissionMixin.dispatch mm request s = s request) ∧
    (request.user.id ≠ mm.object.id →
       ∀ t : HttpRequest → Response × List Message,
         ModifyPermissionMixin.dispatch mm request s =
           ModifyPermissionMixin.dispatch mm request t) ∧
    (request.user.id = tm.object.author.id →
       TaskDeletionPermissionMixin.dispatch tm request s = s request) ∧
    (request.user.id ≠ tm.object.author.id →
       ∀ t : HttpRequest → Response × List Message,
         TaskDeletionPermissionMixin.dispatch tm request s =
           TaskDeletionPermissionMixin.dispatch tm request t) := by
  refine ⟨fun h => ?_, fun h t => ?_, fun h => ?_, fun h t => ?_⟩
  · unfold ModifyPermissionMixin.dispatch
    rw [if_neg (fun hc => hc h)]
  · unfold ModifyPermissionMixin.dispatch
    rw [if_pos h, if_pos h]
  · unfold TaskDeletionPermissionMixin.dispatch
    rw [if_neg (fun hc => hc h)]
  · unfold TaskDeletionPermissionMixin.dispatch
    rw [if_pos h, if_pos h]

/-- Witness for claim C1 at concrete inputs: owner requests delegate,
non-owner requests produce a result independent of the wrapped handler. -/
theorem ownership_gate_controls_handler_access_holds :
    (ModifyPermissionMixin.dispatch mmSample reqOwner innerHandler =
       innerHandler reqOwner) ∧
    (ModifyPermissionMixin.dispatch mmSample reqOther innerHandler =
       ModifyPermissionMixin.dispatch mmSample reqOther innerHandlerAlt) ∧
    (TaskDeletionPermissionMixin.dispatch tmSample reqOwner innerHandler =
       innerHandler reqOwner) ∧
    (TaskDeletionPermissionMixin.dispatch tmSample reqOther innerHandler =
       TaskDeletionPermissionMixin.dispatch tmSample reqOther
         innerHandlerAlt) :=
  ⟨(ownership_gate_controls_handler_access mmSample tmSample reqOwner
      innerHandler).1 (by decide),
   (ownership_gate_controls_handler_access mmSample tmSample reqOther
      innerHandler).2.1 (by decide) innerHandlerAlt,
   (ownership_gate_controls_handler_access mmSample tmSample reqOwner
      innerHandler).2.2.1 (by decide),
   (ownership_gate_controls_handler_access mmSample tmSample reqOther
      innerHandler).2.2.2 (by decide) innerHandlerAlt⟩

/-- Counterexample for claim C2: an unauthenticated requester with a
mismatched identity still gets an error message enqueued by
ModifyPermissionMixin.dispatch, so the message suppression for
unauthenticated requesters does not hold for both ownership policies. -/
theorem modify_mixin_messages_unauthenticated_cex :
    reqAnon.user.is_authenticated = false ∧
    reqAnon.user.id ≠ mmSample.object.id ∧
    (ModifyPermissionMixin.dispatch mmSample reqAnon innerHandler).2 =
      [⟨MsgLevel.error, "Access denied message"⟩] := by
  decide

/-- Claim C2 (amended): on an identity mismatch both policies redirect to
their configured unpermission_url; ModifyPermissionMixin always enqueues
the error message, while TaskDeletionPermissionMixin enqueues it only for
authenticated requesters and suppresses it for unauthenticated ones. -/
theorem unauthorized_modify_delete_redirect_and_message
    (mm : ModifyPermissionMixin) (tm : TaskDeletionPermissionMixin)
    (request : HttpRequest)
    (s : HttpRequest → Response × List Message) :
    (request.user.id ≠ mm.object.id →
       ModifyPermissionMixin.dispatch mm request s =
         (Response.redirect mm.unpermission_url,
          [⟨MsgLevel.error, mm.unpermission_message⟩])) ∧
    (request.user.id ≠ tm.object.author.id →
       TaskDeletionPermissionMixin.dispatch tm request s =
         (Response.redirect tm.unpermission_url,
          if request.user.is_authenticated then
            [⟨MsgLevel.error, tm.unpermission_message⟩]
          else [])) := by
  refine ⟨fun h => ?_, fun h => ?_⟩
  · unfold ModifyPermissionMixin.dispatch
    rw [if_pos h]
  · unfold TaskDeletionPermissionMixin.dispatch
    rw [if_pos h]
    cases hb : request.user.is_authenticated <;> simp [hb]

/-- Witness for the amended claim C2 at concrete inputs: an authenticated
non-owner and an anonymous non-owner. -/
theorem unauthorized_modify_delete_redirect_and_message_holds :
    (ModifyPermissionMixin.dispatch mmSample reqOther innerHandler =
       (Response.redirect mmSample.unpermission_url,
        [⟨MsgLevel.error, mmSample.unpermission_message⟩])) ∧
    (TaskDeletionPermissionMixin.dispatch tmSample reqAnon innerHandler =
       (Response.redirect tmSample.unpermission_url,
        if reqAnon.user.is_authenticated then
          [⟨MsgLevel.error, tmSample.unpermission_message⟩]
        else [])) :=
  ⟨(unauthorized_modify_delete_redirect_and_message mmSample tmSample
      reqOther innerHandler).1 (by decide),
   (unauthorized_modify_delete_redirect_and_message mmSample tmSample
      reqAnon innerHandler).2 (by decide)⟩

/-- Claim C4: whenever the requester identity differs from the resource
identity, ModifyPermissionMixin.dispatch enqueues an error-level message
and returns a redirect to unpermission_url; the result is the same for
every wrapped handler, so the handler is never invoked. -/
theorem modify_mixin_denies_nonowner
    (m : ModifyPermissionMixin) (request : HttpRequest)
    (s : HttpRequest → Response × List Message)
    (h : request.user.id ≠ m.object.id) :
    ModifyPermissionMixin.dispatch m request s =
      (Response.redirect m.unpermission_url,
       [⟨MsgLevel.error, m.unpermission_message⟩]) := by
  unfold ModifyPermissionMixin.dispatch
  rw [if_pos h]

/-- Witness for claim C4: the user with identity 2 is denied modification
of the resource owned by identity 1. -/
theorem modify_mixin_denies_nonowner_holds :
    ModifyPermissionMixin.dispatch mmSample reqOther innerHandler =
      (Response.redirect mmSample.unpermission_url,
       [⟨MsgLevel.error, mmSample.unpermission_message⟩]) :=
  modify_mixin_denies_nonowner mmSample reqOther innerHandler (by decide)

/-- Claim C5: whenever the requester identity equals the resource identity,
ModifyPermissionMixin.dispatch returns the wrapped handler response
unchanged, enqueuing no message of its own. -/
theorem modify_mixin_delegates_owner
    (m : ModifyPermissionMixin) (request : HttpRequest)
    (s : HttpRequest → Response × List Message)
    (h : request.user.id = m.object.id) :
    ModifyPermissionMixin.dispatch m request s = s request := by
  unfold ModifyPermissionMixin.dispatch
  rw [if_neg (fun hc => hc h)]

/-- Witness for claim C5: the owner request is passed through to the
wrapped handler. -/
theorem modify_mixin_delegates_owner_holds :
    ModifyPermissionMixin.dispatch mmSample reqOwner innerHandler =
      innerHandler reqOwner :=
  modify_mixin_delegates_owner mmSample reqOwner innerHandler (by decide)

/-- Claim C3: when the wrapped deletion handler raises ProtectedError,
DeletionProtectionMixin.post catches it, enqueues an error-level message
with the configured text, and returns a redirect to the configured
protected_data_url, which defaults to the home location; the error never
propagates because the result is a normal response, not an error. -/
theorem deletion_protection_converts_protected_error
    (m : DeletionProtectionMixin) (request : HttpRequest)
    (superPost : HttpRequest → Except Exc Response)
    (h : superPost request = Except.error Exc.protectedError) :
    DeletionProtectionMixin.post m request superPost =
      Except.ok (Response.redirect m.protected_data_url,
        [⟨MsgLevel.error, m.protected_data_message⟩]) ∧
    ({} : DeletionProtectionMixin).protected_data_url = REVERSE_HOME := by
  constructor
  · unfold DeletionProtectionMixin.post
    rw [h]
  · rfl

/-- Witness for claim C3: a wrapped handler that raises ProtectedError is
converted to a redirect with an error message. -/
theorem deletion_protection_converts_protected_error_holds :
    DeletionProtectionMixin.post {} reqOwner deleteProtected =
      Except.ok
        (Response.redirect ({} : DeletionProtectionMixin).protected_data_url,
         [⟨MsgLevel.error,
           ({} : DeletionProtectionMixin).protected_data_message⟩]) ∧
    ({} : DeletionProtectionMixin).protected_data_url = REVERSE_HOME :=
  deletion_protection_converts_protected_error {} reqOwner deleteProtected
    rfl

/-- Claim C6: when the wrapped deletion handler fails with any error other
than ProtectedError, DeletionProtectionMixin.post propagates that failure
unchanged: the result is exactly that error, with no message enqueued and
no redirect produced. -/
theorem deletion_protection_propagates_other_errors
    (m : DeletionProtectionMixin) (request : HttpRequest)
    (superPost : HttpRequest → Except Exc Response) (e : Exc)
    (h : superPost request = Except.error e)
    (hne : e ≠ Exc.protectedError) :
    DeletionProtectionMixin.post m request superPost = Except.error e := by
  unfold DeletionProtectionMixin.post
  rw [h]
  cases e with
  | protectedError => exact absurd rfl hne
  | otherError code => rfl

/-- Witness for claim C6: a wrapped handler failing with an unrelated error
has that error propagated unmodified. -/
theorem deletion_protection_propagates_other_errors_holds :
    DeletionProtectionMixin.post {} reqOwner deleteOther =
      Except.error (Exc.otherError 7) :=
  deletion_protection_propagates_other_errors {} reqOwner deleteOther
    (Exc.otherError 7) rfl (by decide)

/-- Claim C7: when the wrapped deletion handler succeeds,
DeletionProtectionMixin.post returns its response unchanged and enqueues no
message. -/
theorem deletion_protection_success_passthrough
    (m : DeletionProtectionMixin) (request : HttpRequest)
    (superPost : HttpRequest → Except Exc Response) (r : Response)
    (h : superPost request = Except.ok r) :
    DeletionProtectionMixin.post m request superPost =
      Except.ok (r, ([] : List Message)) := by
  unfold DeletionProtectionMixin.post
  rw [h]

/-- Witness for claim C7: a successful wrapped deletion is passed through
with no message enqueued. -/
theorem deletion_protection_success_passthrough_holds :
    DeletionProtectionMixin.post {} reqOwner deleteOk =
      Except.ok (Response.content "deleted", ([] : List Message)) :=
  deletion_protection_success_passthrough {} reqOwner deleteOk
    (Response.content "deleted") rfl

/-- Claim C8: for every anonymous request to a view requiring
authentication, the response produced through
AuthentificationPermissionMixin.handle_no_permission is a redirect to the
login location, with a warning-level MSG_NO_PERMISSION message enqueued. -/
theorem auth_mixin_anonymous_login_redirect
    (request : HttpRequest)
    (inner : HttpRequest → Response × List Message)
    (h : request.user.is_authenticated = false) :
    AuthentificationPermissionMixin.dispatch request inner =
      (Response.redirect REVERSE_LOGIN,
       [⟨MsgLevel.warning, MSG_NO_PERMISSION⟩]) := by
  unfold AuthentificationPermissionMixin.dispatch loginRequiredDispatch
  rw [h]
  rfl

/-- Witness for claim C8: the anonymous request is redirected to login with
the warning message. -/
theorem auth_mixin_anonymous_login_redirect_holds :
    AuthentificationPermissionMixin.dispatch reqAnon innerHandler =
      (Response.redirect REVERSE_LOGIN,
       [⟨MsgLevel.warning, MSG_NO_PERMISSION⟩]) :=
  auth_mixin_anonymous_login_redirect reqAnon innerHandler rfl

/-- Claim C9: in both ModifyPermissionMixin.dispatch and
TaskDeletionPermissionMixin.dispatch the ownership comparison runs before
the inherited authentication gate: an anonymous request (user.id None,
not authenticated) whose identity differs from the compared resource
identity receives the policy denial redirect to unpermission_url, not the
login redirect that the authentication gate would produce; the gate and
the inner handler are never consulted, since the result is independent of
them. -/
theorem ownership_check_precedes_auth_gate
    (mm : ModifyPermissionMixin) (tm : TaskDeletionPermissionMixin)
    (request : HttpRequest)
    (inner : HttpRequest → Response × List Message)
    (hanon : request.user.is_authenticated = false)
    (hid : request.user.id = none) :
    (mm.object.id ≠ none →
       ModifyPermissionMixin.dispatchThroughGate mm request inner =
         (Response.redirect mm.unpermission_url,
          [⟨MsgLevel.error, mm.unpermission_message⟩])) ∧
    (tm.object.author.id ≠ none →
       TaskDeletionPermissionMixin.dispatchThroughGate tm request inner =
         (Response.redirect tm.unpermission_url, ([] : List Message))) := by
  refine ⟨fun hobj => ?_, fun hobj => ?_⟩
  · have hne : request.user.id ≠ mm.object.id := by
      rw [hid]
      exact fun hc => hobj hc.symm
    unfold ModifyPermissionMixin.dispatchThroughGate
      ModifyPermissionMixin.dispatch
    rw [if_pos hne]
  · have hne : request.user.id ≠ tm.object.author.id := by
      rw [hid]
      exact fun hc => hobj hc.symm
    unfold TaskDeletionPermissionMixin.dispatchThroughGate
      TaskDeletionPermissionMixin.dispatch
    rw [if_pos hne, hanon]
    rfl

/-- Witness for claim C9: the anonymous request against resources owned by
identity 1 receives the policy denial from both mixins. -/
theorem ownership_check_precedes_auth_gate_holds :
    (ModifyPermissionMixin.dispatchThroughGate mmSample reqAnon
       innerHandler =
       (Response.redirect mmSample.unpermission_url,
        [⟨MsgLevel.error, mmSample.unpermission_message⟩])) ∧
    (TaskDeletionPermissionMixin.dispatchThroughGate tmSample reqAnon
       innerHandler =
       (Response.redirect tmSample.unpermission_url,
        ([] : List Message))) :=
  ⟨(ownership_check_precedes_auth_gate mmSample tmSample reqAnon
      innerHandler rfl rfl).1 (by decide),
   (ownership_check_precedes_auth_gate mmSample tmSample reqAnon
      innerHandler rfl rfl).2 (by decide)⟩

/-- Claim C10: the ownership check of TaskDeletionPermissionMixin.dispatch
is plain equality on possibly-absent identifiers: an anonymous request
(user.id None) against a task whose author id is also None passes the check
and is delegated to super().dispatch rather than denied. -/
theorem task_deletion_none_ids_delegate
    (tm : TaskDeletionPermissionMixin) (request : HttpRequest)
    (s : HttpRequest → Response × List Message)
    (hid : request.user.id = none)
    (haid : tm.object.author.id = none) :
    TaskDeletionPermissionMixin.dispatch tm request s = s request := by
  unfold TaskDeletionPermissionMixin.dispatch
  rw [if_neg (fun hc => hc (hid.trans haid.symm))]

/-- Witness for claim C10: the anonymous request against a task with an
absent author id is delegated to the super dispatch continuation. -/
theorem task_deletion_none_ids_delegate_holds :
    TaskDeletionPermissionMixin.dispatch tmNone reqAnon innerHandler =
      innerHandler reqAnon :=
  task_deletion_none_ids_delegate tmNone reqAnon innerHandler rfl rfl
